import Mathlib

/-!
Shallow embedding of the event-driven core of the `asterisk-ari` client
library: the request queue with retry and circuit breaker, the reconnecting
WebSocket transport, the typed event dispatcher, and the per-entity
instance registry of the session facade.  Machine time (`Date.now()`) is
threaded explicitly as a natural-number timestamp; elapsed-time
comparisons are performed over `Int` to mirror JavaScript arithmetic.
-/

namespace AsteriskAri

/-! ## Request queue with retry and circuit breaker (RequestQueue) -/

/-- Circuit breaker state, from `type CircuitState = 'closed' | 'open' | 'half-open'`. -/
inductive CircuitState where
  | closed
  | opened
  | halfOpen
deriving DecidableEq, Repr

/-- Queue configuration, from `QueueOptions` with the constructor's defaults. -/
structure QueueConfig where
  maxConcurrent : Nat := 10
  maxRetries : Nat := 3
  retryDelay : Nat := 1000
  circuitBreakerThreshold : Nat := 5
  circuitBreakerTimeout : Nat := 30000
deriving DecidableEq, Repr

/-- The breaker-related mutable fields of `RequestQueue`. -/
structure BreakerState where
  failureCount : Nat
  circuitState : CircuitState
  circuitOpenTime : Nat
deriving DecidableEq, Repr

/-- Initial breaker state of a freshly constructed `RequestQueue`. -/
def BreakerState.init : BreakerState :=
  { failureCount := 0, circuitState := .closed, circuitOpenTime := 0 }

/-- `RequestQueue.updateCircuitState`, with `Date.now()` passed as `now`:
when the breaker is open and the cooldown has elapsed, move to half-open
and reset the failure counter. -/
def updateCircuitState (cfg : QueueConfig) (s : BreakerState) (now : Nat) : BreakerState :=
  if s.circuitState = .opened then
    if (now : Int) - (s.circuitOpenTime : Int) ≥ (cfg.circuitBreakerTimeout : Int) then
      { s with circuitState := .halfOpen, failureCount := 0 }
    else s
  else s

/-- `RequestQueue.onSuccess`: reset the failure counter; close the breaker
if it was half-open. -/
def onSuccess (s : BreakerState) : BreakerState :=
  { s with
    failureCount := 0,
    circuitState := if s.circuitState = .halfOpen then .closed else s.circuitState }

/-- `RequestQueue.onFailure`, with `Date.now()` passed as `now`: bump the
failure counter; open the breaker and record the trip time once the
counter reaches the threshold. -/
def onFailure (cfg : QueueConfig) (s : BreakerState) (now : Nat) : BreakerState :=
  let fc := s.failureCount + 1
  if fc ≥ cfg.circuitBreakerThreshold then
    { failureCount := fc, circuitState := .opened, circuitOpenTime := now }
  else
    { s with failureCount := fc }

/-- `RequestQueue.isRetryable` helper: JavaScript `String.toLowerCase`
restricted to the ASCII range used by the match patterns. -/
def toLowerStr (s : String) : String :=
  String.mk (s.data.map Char.toLower)

/-- List-level prefix test used to embed `String.includes`. -/
def isPrefixOfList : List Char → List Char → Bool
  | [], _ => true
  | _ :: _, [] => false
  | p :: ps, c :: cs => p = c && isPrefixOfList ps cs

/-- List-level substring test used to embed `String.includes`. -/
def containsSubList (pat : List Char) : List Char → Bool
  | [] => pat.isEmpty
  | c :: cs => isPrefixOfList pat (c :: cs) || containsSubList pat cs

/-- JavaScript `message.includes(pat)`. -/
def includesStr (s pat : String) : Bool :=
  containsSubList pat.data s.data

/-- The regex match `message.match(/(\d{3})/)` followed by
`parseInt(statusMatch[1], 10)`: the first run of three consecutive ASCII
digits in the string, as a number. -/
def firstThreeDigits : List Char → Option Nat
  | a :: b :: c :: rest =>
    if a.isDigit && b.isDigit && c.isDigit then
      some ((a.toNat - 48) * 100 + (b.toNat - 48) * 10 + (c.toNat - 48))
    else firstThreeDigits (b :: c :: rest)
  | _ => none

/-- A JavaScript `Error` value, reduced to the message consulted by the
queue's retry classifier. -/
structure JsError where
  message : String
deriving DecidableEq, Repr

/-- `RequestQueue.isRetryable`: network-class substrings, otherwise the
first embedded three-digit status code with `status >= 500 || status == 429`. -/
def isRetryable (e : JsError) : Bool :=
  let message := toLowerStr e.message
  if includesStr message "network" || includesStr message "timeout" ||
      includesStr message "econnrefused" || includesStr message "econnreset" ||
      includesStr message "socket" then
    true
  else
    match firstThreeDigits message.data with
    | some status => decide (status ≥ 500) || decide (status = 429)
    | none => false

/-- Outcome of one invocation of a queued operation function. -/
inductive Outcome (α : Type) where
  | success (v : α)
  | failure (e : JsError)
deriving DecidableEq, Repr

/-- A `QueuedRequest`: the retry counter, plus a scenario script giving the
outcome of each successive invocation of the operation function and the
number of invocations so far. -/
structure QItem (α : Type) where
  retries : Nat
  invoked : Nat
  behavior : Nat → Outcome α

/-- The queue-level mutable state relevant to the verified claims: the
pending list, the breaker fields, the current clock, and a global counter
of operation-function invocations. -/
structure QState (α : Type) where
  pending : List (QItem α)
  breaker : BreakerState
  now : Nat
  invocations : Nat

/-- Initial `RequestQueue` state at clock `t`. -/
def QState.init (α : Type) (t : Nat) : QState α :=
  { pending := [], breaker := BreakerState.init, now := t, invocations := 0 }

/-- Settlement produced by one pass of `RequestQueue.executeRequest` over
an item. -/
inductive ExecResult (α : Type) where
  | resolved (v : α)
  | rejectedFinal (e : JsError)
  | rejectedBreakerOpen
  | requeued
deriving DecidableEq, Repr

/-- `RequestQueue.executeRequest`: run the operation once; on success
apply `onSuccess` and resolve; on a retryable failure under the retry cap,
bump the counter, wait `retryDelay * retries` (the clock advances by the
delay), re-check the breaker (rejecting if it is open), and otherwise
`unshift` the item back onto the front of the pending list; on a final
failure apply `onFailure` and reject. -/
def executeRequest (cfg : QueueConfig) (s : QState α) (item : QItem α) :
    QState α × ExecResult α :=
  let outcome := item.behavior item.invoked
  let item := { item with invoked := item.invoked + 1 }
  let s := { s with invocations := s.invocations + 1 }
  match outcome with
  | .success v => ({ s with breaker := onSuccess s.breaker }, .resolved v)
  | .failure e =>
    if item.retries < cfg.maxRetries ∧ isRetryable e then
      let item := { item with retries := item.retries + 1 }
      let s := { s with now := s.now + cfg.retryDelay * item.retries }
      let b := updateCircuitState cfg s.breaker s.now
      let s := { s with breaker := b }
      if b.circuitState = .opened then (s, .rejectedBreakerOpen)
      else ({ s with pending := item :: s.pending }, .requeued)
    else
      ({ s with breaker := onFailure cfg s.breaker s.now }, .rejectedFinal e)

/-- Result visible to the caller of `RequestQueue.enqueue` at the moment
of the call. -/
inductive EnqueueResult where
  | rejectedBreakerOpen
  | queued
deriving DecidableEq, Repr

/-- `RequestQueue.enqueue`: re-evaluate the breaker; if open, throw
`CircuitBreakerOpenError` without queuing (so the operation function is
never invoked); otherwise push a fresh item with `retries := 0`. -/
def enqueue (cfg : QueueConfig) (s : QState α) (behavior : Nat → Outcome α) :
    QState α × EnqueueResult :=
  let b := updateCircuitState cfg s.breaker s.now
  let s := { s with breaker := b }
  if b.circuitState = .opened then (s, .rejectedBreakerOpen)
  else ({ s with pending := s.pending ++ [⟨0, 0, behavior⟩] }, .queued)

/-- The scheduler's treatment of a single in-flight item: the
`processQueue` loop re-checks the breaker before picking the item off the
front of the pending list, then runs `executeRequest`; a requeued item is
picked up again from the front.  Fuel bounds the number of attempts. -/
def runItem (cfg : QueueConfig) : Nat → QState α → QItem α → QState α × Option (ExecResult α)
  | 0, s, _ => (s, none)
  | fuel + 1, s, item =>
    let b := updateCircuitState cfg s.breaker s.now
    let s := { s with breaker := b }
    if b.circuitState = .opened then (s, some .rejectedBreakerOpen)
    else
      match executeRequest cfg s item with
      | (s', r) =>
        match r with
        | .requeued =>
          match s'.pending with
          | i :: rest => runItem cfg fuel { s' with pending := rest } i
          | [] => (s', none)
        | r => (s', some r)

/-- A non-retryable operation: every invocation fails with an error that
`isRetryable` classifies as final (`"boom"` carries no network-class
substring and no three-digit status). -/
def boomBehavior : Nat → Outcome Nat := fun _ => Outcome.failure ⟨"boom"⟩

/-- One finally-failed operation: `executeRequest` on a fresh item whose
operation fails non-retryably. -/
def finalFailure (cfg : QueueConfig) (s : QState Nat) : QState Nat :=
  (executeRequest cfg s ⟨0, 0, boomBehavior⟩).1

/-- The queue state after five consecutive finally-failed operations,
starting from a fresh default-configured queue at clock 7. -/
def c3state : QState Nat :=
  finalFailure {} (finalFailure {} (finalFailure {} (finalFailure {}
    (finalFailure {} (QState.init Nat 7)))))

/-- The retry scenario operation: fails retryably (network error) on its
first two invocations, then succeeds with 42. -/
def c4behavior : Nat → Outcome Nat :=
  fun n => if n < 2 then Outcome.failure ⟨"network error"⟩ else Outcome.success 42

/-- Witness operation for the generic retry step: always fails with a
socket error, which `isRetryable` accepts. -/
def c4wBehavior : Nat → Outcome Nat := fun _ => Outcome.failure ⟨"socket hang up"⟩

/-! ## Typed event dispatcher (TypedEventEmitter)

Listeners are modelled abstractly as an identifier plus a flag saying
whether invoking the listener throws.  `emit` is embedded together with
the Node.js `EventEmitter.emit` it delegates exact-type dispatch to: Node
invokes the listeners registered for the type in insertion order with
`(data, ...args)` and propagates a listener's exception immediately
(remaining listeners of the type are skipped); the wildcard loop then
invokes every wildcard listener with `(data, ...args)` inside a
try/catch that logs and swallows exceptions. -/

/-- A registered listener: an identifier and whether its invocation throws. -/
structure EvListener where
  lid : Nat
  throws : Bool
deriving DecidableEq, Repr

/-- The listener stores of a `TypedEventEmitter`: the inner Node emitter's
per-type registrations (insertion order, as `(type, listener)` pairs) and
the wildcard `Set` (iterated in insertion order). -/
structure EmitterState where
  exact : List (String × EvListener)
  wildcard : List EvListener
deriving DecidableEq, Repr

/-- One recorded listener invocation: which listener ran and the JavaScript
argument list it received (`[payload]` or `[payload, extra, ...]`),
arguments abstracted as naturals. -/
structure EvCall where
  lid : Nat
  args : List Nat
deriving DecidableEq, Repr

/-- The listeners the inner Node emitter holds for one type, in
registration order. -/
def listenersFor (st : EmitterState) (ty : String) : List EvListener :=
  (st.exact.filter (fun p => p.1 = ty)).map Prod.snd

/-- Node `EventEmitter.emit` over the type's listeners: each listener is
invoked in order with the argument list; a throwing listener still runs,
but its exception aborts the remaining listeners and propagates.  Returns
the recorded calls and whether an exception escaped. -/
def runExactListeners : List EvListener → List Nat → List EvCall × Bool
  | [], _ => ([], false)
  | l :: rest, args =>
    if l.throws then ([⟨l.lid, args⟩], true)
    else
      let (cs, t) := runExactListeners rest args
      (⟨l.lid, args⟩ :: cs, t)

/-- The wildcard loop of `TypedEventEmitter.emit`: every wildcard listener
is invoked with `(data, ...args)`; exceptions are caught and logged, so
every wildcard listener runs. -/
def runWildcardListeners (ls : List EvListener) (args : List Nat) : List EvCall :=
  ls.map (fun l => ⟨l.lid, args⟩)

/-- Result of one `emit` call: the listener invocations in order, whether
an exception propagated to the caller of `emit`, and (when `emit`
returned normally) its boolean return value. -/
structure EmitResult where
  calls : List EvCall
  threw : Bool
  returned : Option Bool
deriving DecidableEq, Repr

/-- `TypedEventEmitter.emit(event, data, ...args)`: first the inner Node
emitter's dispatch to the exact-type listeners (whose exceptions
propagate, skipping the wildcard loop entirely), then the try/catch
wildcard loop, then `hasListeners || wildcardListeners.size > 0`. -/
def emit (st : EmitterState) (ty : String) (payload : Nat) (extra : List Nat) : EmitResult :=
  let args := payload :: extra
  let ls := listenersFor st ty
  let (ecalls, threw) := runExactListeners ls args
  if threw then { calls := ecalls, threw := true, returned := none }
  else
    { calls := ecalls ++ runWildcardListeners st.wildcard args,
      threw := false,
      returned := some (!ls.isEmpty || !st.wildcard.isEmpty) }

/-! ## WebSocket transport (WebSocketManager)

The reconnect-relevant fields and handlers of `WebSocketManager`.  Delays
are rationals (`reconnectInterval * multiplier ^ attempts`, capped with
`Math.min`; all values arising in the verified scenarios are exactly
representable, so rational arithmetic coincides with the JavaScript
floating-point computation). -/

/-- The reconnect-related options of `WebSocketManagerOptions`. -/
structure WSConfig where
  reconnect : Bool
  reconnectInterval : ℚ
  maxReconnectInterval : ℚ
  reconnectBackoffMultiplier : ℚ
deriving DecidableEq, Repr

/-- The reconnect-related mutable fields of `WebSocketManager`
(`reconnectTimer` is abstracted to whether a timer is pending). -/
structure WSState where
  reconnecting : Bool
  reconnectAttempts : Nat
  reconnectTimer : Bool
  intentionalClose : Bool
deriving DecidableEq, Repr

/-- State of a freshly constructed `WebSocketManager`. -/
def WSState.init : WSState :=
  { reconnecting := false, reconnectAttempts := 0, reconnectTimer := false,
    intentionalClose := false }

/-- Connection lifecycle notifications emitted by the manager. -/
inductive WSEmit where
  | connectedEv
  | disconnectedEv (intentional : Bool)
  | reconnectingEv (attempt : Nat) (delay : ℚ)
  | reconnectedEv
  | errorEv
deriving DecidableEq, Repr

/-- JavaScript `Math.min` on two (comparable, non-NaN) numbers. -/
def mathMin (a b : ℚ) : ℚ := if a ≤ b then a else b

/-- `WebSocketManager.getReconnectDelay`:
`Math.min(reconnectInterval * multiplier ** reconnectAttempts, maxReconnectInterval)`. -/
def getReconnectDelay (cfg : WSConfig) (s : WSState) : ℚ :=
  mathMin (cfg.reconnectInterval * cfg.reconnectBackoffMultiplier ^ s.reconnectAttempts)
    cfg.maxReconnectInterval

/-- `WebSocketManager.scheduleReconnect`: no-op when a reconnect cycle is
already in flight or the closure was intentional; otherwise set the
re-entrancy flag, compute the delay from the current attempt count,
increment the count, emit `reconnecting{attempt, delay}` and arm the
timer. -/
def scheduleReconnect (cfg : WSConfig) (s : WSState) : WSState × List WSEmit :=
  if s.reconnecting || s.intentionalClose then (s, [])
  else
    let delay := getReconnectDelay cfg s
    let s' : WSState :=
      { s with
        reconnecting := true
        reconnectAttempts := s.reconnectAttempts + 1
        reconnectTimer := true }
    (s', [.reconnectingEv (s.reconnectAttempts + 1) delay])

/-- External and timer happenings driving the manager. `timerFire` is the
scheduled reconnect callback running `connect()` with the given outcome;
`connectCall` is an explicit caller-initiated `connect()` whose
open/error events arrive later as `openEvent`/`closeEvent`. -/
inductive WSStep where
  | closeEvent
  | openEvent
  | errorEvent
  | timerFire (success : Bool)
  | disconnectCall
  | connectCall
deriving DecidableEq, Repr

/-- One step of the manager:
* `closeEvent` — the socket's `close` handler: a non-intentional close
  emits `disconnected{intentional:false}` and, when reconnection is
  enabled, runs `scheduleReconnect`; an intentional close just emits
  `disconnected{intentional:true}`;
* `openEvent` — the `open` handler: resets the attempt count and the
  re-entrancy flag and emits `connected`;
* `errorEvent` — the `error` handler: emits `error`;
* `timerFire` — the pending reconnect timer's callback: clears the timer,
  runs `connect()` (which resets `intentionalClose`); on success the open
  handler runs and `reconnected` is emitted after it;
* `disconnectCall` — `disconnect()`: marks the closure intentional,
  clears the re-entrancy flag and cancels any pending reconnect timer;
* `connectCall` — a caller-initiated `connect()`: resets
  `intentionalClose`. -/
def wsStep (cfg : WSConfig) (s : WSState) : WSStep → WSState × List WSEmit
  | .closeEvent =>
    if !s.intentionalClose then
      if cfg.reconnect then
        let (s', es) := scheduleReconnect cfg s
        (s', .disconnectedEv false :: es)
      else (s, [.disconnectedEv false])
    else (s, [.disconnectedEv true])
  | .openEvent =>
    ({ s with reconnectAttempts := 0, reconnecting := false }, [.connectedEv])
  | .errorEvent => (s, [.errorEv])
  | .timerFire success =>
    if s.reconnectTimer then
      let s := { s with reconnectTimer := false, intentionalClose := false }
      if success then
        ({ s with reconnectAttempts := 0, reconnecting := false },
          [.connectedEv, .reconnectedEv])
      else (s, [])
    else (s, [])
  | .disconnectCall =>
    ({ s with intentionalClose := true, reconnecting := false, reconnectTimer := false }, [])
  | .connectCall => ({ s with intentionalClose := false }, [])

/-- Run a sequence of steps, collecting every emitted notification. -/
def wsRun (cfg : WSConfig) : WSState → List WSStep → WSState × List WSEmit
  | s, [] => (s, [])
  | s, st :: rest =>
    ((wsRun cfg (wsStep cfg s st).1 rest).1,
      (wsStep cfg s st).2 ++ (wsRun cfg (wsStep cfg s st).1 rest).2)

/-- A notification that is neither `reconnecting` nor `reconnected`. -/
def notReconnectEmit : WSEmit → Bool
  | .reconnectingEv _ _ => false
  | .reconnectedEv => false
  | _ => true

/-- The transport configuration of claim C5:
`{initial=1000, multiplier=1.5, max=30000}` with reconnection enabled. -/
def wsCfg5 : WSConfig :=
  { reconnect := true, reconnectInterval := 1000, maxReconnectInterval := 30000,
    reconnectBackoffMultiplier := 3 / 2 }

/-! ## Session facade: channel registry and event routing (AriClient)

Channel proxies (`ChannelInstance`) are modelled as entries of a store
indexed by allocation number, so that JavaScript object identity is
reference equality on the index.  The channel registry
(`channelInstances : Map<string, ChannelInstance>`) maps identifier to
store index.  `crypto.randomUUID()` (a platform API) is modelled as a
deterministic fresh-string generator drawing from a counter; the model
keeps its two relevant properties, non-emptiness and freshness.  Channel
snapshots are restricted to the fields the claims consult
(`id`, `name`, `state`). -/

/-- A partial channel payload (`Partial<Channel>`), as carried by events
and passed to `updateData`. -/
structure ChannelPatch where
  id : Option String
  name : Option String
  state : Option String
deriving DecidableEq, Repr

/-- A `ChannelInstance`: cached snapshot fields plus the per-instance
listener table (`Map<string, Set<fn>>`, flattened to insertion-ordered
`(eventType, listenerId)` pairs). -/
structure ChannelProxy where
  id : String
  name : String
  state : String
  listeners : List (String × Nat)
deriving DecidableEq, Repr

/-- `ChannelInstance.updateData`: merge the defined fields of the patch
into the snapshot, in source order. -/
def updateData (p : ChannelProxy) (d : ChannelPatch) : ChannelProxy :=
  let p := match d.id with | some v => { p with id := v } | none => p
  let p := match d.name with | some v => { p with name := v } | none => p
  match d.state with | some v => { p with state := v } | none => p

/-- An inbound ARI event, reduced to its type and optional channel
reference. -/
structure ChanEvent where
  type : String
  channel : Option ChannelPatch
deriving DecidableEq, Repr

/-- One invocation of a channel-scoped listener: the listener, the event
it received and the proxy (store index) passed as second argument. -/
structure ChanCall where
  lid : Nat
  event : ChanEvent
  proxyRef : Nat
deriving DecidableEq, Repr

/-- JavaScript truthiness of an optional string (`undefined` and `""` are
falsy). -/
def truthy : Option String → Bool
  | some s => s != ""
  | none => false

/-- `Map.get` on a string-keyed map. -/
def mapGet : List (String × Nat) → String → Option Nat
  | [], _ => none
  | (k, v) :: rest, key => if k = key then some v else mapGet rest key

/-- `Map.set` on a string-keyed map: replace in place or append. -/
def mapSet : List (String × Nat) → String → Nat → List (String × Nat)
  | [], key, v => [(key, v)]
  | (k, w) :: rest, key, v =>
    if k = key then (k, v) :: rest else (k, w) :: mapSet rest key v

/-- `Map.delete` on a string-keyed map. -/
def mapDelete : List (String × Nat) → String → List (String × Nat)
  | [], _ => []
  | (k, w) :: rest, key => if k = key then rest else (k, w) :: mapDelete rest key

/-- `Map.get` on the proxy store. -/
def storeGet : List (Nat × ChannelProxy) → Nat → Option ChannelProxy
  | [], _ => none
  | (k, v) :: rest, key => if k = key then some v else storeGet rest key

/-- `Map.set` on the proxy store. -/
def storeSet : List (Nat × ChannelProxy) → Nat → ChannelProxy → List (Nat × ChannelProxy)
  | [], key, v => [(key, v)]
  | (k, w) :: rest, key, v =>
    if k = key then (k, v) :: rest else (k, w) :: storeSet rest key v

/-- `crypto.randomUUID()` modelled deterministically: the `n`-th generated
identifier.  Always non-empty, and distinct for distinct `n`. -/
def randomUUID (n : Nat) : String := "uuid-" ++ Nat.repr n

/-- The `AriClient` state relevant to the channel claims: the proxy store,
the channel registry `channelInstances`, the allocation and UUID counters,
and the log of channel-scoped listener invocations. -/
structure ClientState where
  store : List (Nat × ChannelProxy)
  channelInstances : List (String × Nat)
  nextRef : Nat
  nextUuid : Nat
  callLog : List ChanCall
deriving DecidableEq, Repr

/-- A freshly constructed `AriClient`. -/
def ClientState.init : ClientState :=
  { store := [], channelInstances := [], nextRef := 0, nextUuid := 0, callLog := [] }

/-- The `ChannelInstance` constructor: `this.id = id || crypto.randomUUID()`,
then `if (data) this.updateData(data)`, then
`this.client._registerChannelInstance(this.id, this)` (note: registered
under the post-update identifier).  Returns the new proxy's store index. -/
def channelInstanceNew (c : ClientState) (id : Option String) (data : Option ChannelPatch) :
    ClientState × Nat :=
  let cid_c : String × ClientState :=
    match id with
    | some s =>
      if s ≠ "" then (s, c)
      else (randomUUID c.nextUuid, { c with nextUuid := c.nextUuid + 1 })
    | none => (randomUUID c.nextUuid, { c with nextUuid := c.nextUuid + 1 })
  let cid := cid_c.1
  let c := cid_c.2
  let p0 : ChannelProxy := { id := cid, name := "", state := "Down", listeners := [] }
  let p := match data with | some d => updateData p0 d | none => p0
  let ref := c.nextRef
  ({ c with
      store := storeSet c.store ref p,
      channelInstances := mapSet c.channelInstances p.id ref,
      nextRef := ref + 1 }, ref)

/-- The `if (data) existing.updateData(data)` step of `AriClient.Channel`
on a registered instance. -/
def mergeExisting (c : ClientState) (ref : Nat) (data : Option ChannelPatch) : ClientState :=
  match data with
  | some d =>
    match storeGet c.store ref with
    | some p => { c with store := storeSet c.store ref (updateData p d) }
    | none => c
  | none => c

/-- `AriClient.Channel(id?, data?)` (the channel `getOrCreate`):
`existingId = id || data?.id`; when truthy and registered, merge `data`
into the existing instance and return it; otherwise construct a new
`ChannelInstance`. -/
def clientChannel (c : ClientState) (id : Option String) (data : Option ChannelPatch) :
    ClientState × Nat :=
  let existingId : Option String :=
    if truthy id then id else data.bind (fun d => d.id)
  if truthy existingId then
    match existingId with
    | some eid =>
      match mapGet c.channelInstances eid with
      | some ref => (mergeExisting c ref data, ref)
      | none => channelInstanceNew c id data
    | none => channelInstanceNew c id data
  else channelInstanceNew c id data

/-- `ChannelInstance.on(event, listener)`: add the listener to the
per-event `Set` (insertion-ordered, duplicates ignored). -/
def channelOn (c : ClientState) (ref : Nat) (ev : String) (lid : Nat) : ClientState :=
  match storeGet c.store ref with
  | some p =>
    let ls := if (ev, lid) ∈ p.listeners then p.listeners else p.listeners ++ [(ev, lid)]
    { c with store := storeSet c.store ref { p with listeners := ls } }
  | none => c

/-- `ChannelInstance._emit(event, data)`: invoke every listener registered
for the event's type with `(event, this)`, each inside a try/catch. -/
def channelEmit (c : ClientState) (ref : Nat) (e : ChanEvent) : ClientState :=
  match storeGet c.store ref with
  | some p =>
    { c with
        callLog := c.callLog ++
          (p.listeners.filter (fun l => l.1 = e.type)).map (fun l => ⟨l.2, e, ref⟩) }
  | none => c

/-- `AriClient.routeEventToInstances` (channel part): when the event
carries a channel reference whose identifier has a registered instance,
update that instance's snapshot and `_emit` the event on it; otherwise the
event is dropped for routing purposes.  The boolean reports whether the
event was delivered to an instance. -/
def routeEventToInstances (c : ClientState) (e : ChanEvent) : ClientState × Bool :=
  match e.channel with
  | some ch =>
    match ch.id with
    | some chId =>
      match mapGet c.channelInstances chId with
      | some ref =>
        let c :=
          match storeGet c.store ref with
          | some p => { c with store := storeSet c.store ref (updateData p ch) }
          | none => c
        (channelEmit c ref e, true)
      | none => (c, false)
    | none => (c, false)
  | none => (c, false)

/-- `AriClient.getConvenienceArg` (channel part): resolve the event's
channel reference to an instance via `this.Channel(event.channel.id,
event.channel)`, creating and registering one on demand. -/
def getConvenienceArg (c : ClientState) (e : ChanEvent) : ClientState × Option Nat :=
  match e.channel with
  | some ch =>
    ((clientChannel c ch.id (some ch)).1, some (clientChannel c ch.id (some ch)).2)
  | none => (c, none)

/-- `AriClient.handleEvent`: resolve the convenience argument (which
creates the proxy on demand), emit to global listeners (which does not
touch the registries), then route to instances. -/
def handleEvent (c : ClientState) (e : ChanEvent) : ClientState × Bool :=
  routeEventToInstances (getConvenienceArg c e).1 e

/-- `AriClient._unregisterChannelInstance`. -/
def unregisterChannelInstance (c : ClientState) (id : String) : ClientState :=
  { c with channelInstances := mapDelete c.channelInstances id }

/-- The session operations that touch the channel registry and proxies,
used to quantify over reachable client states. -/
inductive ClientOp where
  | channelCall (id : Option String) (data : Option ChannelPatch)
  | eventOp (e : ChanEvent)
  | onOp (ref : Nat) (ev : String) (lid : Nat)
  | removeAllListenersOp (ref : Nat)
deriving DecidableEq, Repr

/-- Apply one session operation (`removeAllListenersOp` mirrors
`ChannelInstance.removeAllListeners`: clear the listener table and
unregister this instance's identifier). -/
def applyOp (c : ClientState) : ClientOp → ClientState
  | .channelCall id data => (clientChannel c id data).1
  | .eventOp e => (handleEvent c e).1
  | .onOp ref ev lid => channelOn c ref ev lid
  | .removeAllListenersOp ref =>
    match storeGet c.store ref with
    | some p =>
      let c := { c with store := storeSet c.store ref { p with listeners := [] } }
      unregisterChannelInstance c p.id
    | none => c

/-- Run a sequence of session operations from a state. -/
def runOps (c : ClientState) : List ClientOp → ClientState
  | [] => c
  | op :: rest => runOps (applyOp c op) rest

/-- The identifiers registered in a channel registry, in order. -/
def regKeys (m : List (String × Nat)) : List String := m.map Prod.fst

/-- The client after `getOrCreate("channel", undefined, undefined)` on a
fresh session (claim C7's scenario). -/
def c7client : ClientState := (clientChannel ClientState.init none none).1

/-- The proxy returned by that call. -/
def c7ref : Nat := (clientChannel ClientState.init none none).2

/-- The inbound event of claim C7's scenario: a `ChannelStateChange` for
the generated identifier with state `"Up"`. -/
def c7event : ChanEvent :=
  { type := "ChannelStateChange",
    channel := some { id := some "uuid-0", name := none, state := some "Up" } }

/-- The scenario client after registering listeners 7 and 8 on the proxy
via `.on("ChannelStateChange", fn)`. -/
def c7withListeners : ClientState :=
  channelOn (channelOn c7client c7ref "ChannelStateChange" 7) c7ref "ChannelStateChange" 8

/-- The scenario result: the client state and routing outcome after the
facade processes the event. -/
def c7final : ClientState × Bool := handleEvent c7withListeners c7event

/-! ## The remaining entity registries (bridge, playback, recording)

`AriClient` holds four independent identifier-to-proxy registries.  The
channel slice is `ClientState` above; the bridge, playback and recording
slices follow here, with each snapshot restricted to the fields the
registry claims consult (the identifier plus representative data fields,
merged by `updateData` in source order).  `_getBridgeInstance` and
`Playback` use the same `existingId = id || data?.id` lookup as
`Channel`; `LiveRecording` looks its required `name` argument up
directly.  Listener tables of these three kinds play no part in the
registry claims and are omitted; `removeAllListeners` is modelled as the
`_unregister…Instance(this.id)` step it performs on the registry. -/

/-- A partial bridge payload (`Partial<Bridge>`), reduced to the fields
the registry claims consult. -/
structure BridgePatch where
  id : Option String
  bridge_type : Option String
  name : Option String
deriving DecidableEq, Repr

/-- A `BridgeInstance` snapshot (reduced). -/
structure BridgeProxy where
  id : String
  bridge_type : String
  name : String
deriving DecidableEq, Repr

/-- `BridgeInstance.updateData` on the modelled fields, in source order. -/
def bridgeUpdateData (p : BridgeProxy) (d : BridgePatch) : BridgeProxy :=
  let p := match d.id with | some v => { p with id := v } | none => p
  let p := match d.bridge_type with | some v => { p with bridge_type := v } | none => p
  match d.name with | some v => { p with name := v } | none => p

/-- A partial playback payload (`Partial<Playback>`), reduced. -/
structure PlaybackPatch where
  id : Option String
  media_uri : Option String
  state : Option String
deriving DecidableEq, Repr

/-- A `PlaybackInstance` snapshot (reduced). -/
structure PlaybackProxy where
  id : String
  media_uri : String
  state : String
deriving DecidableEq, Repr

/-- `PlaybackInstance.updateData` on the modelled fields, in source order. -/
def playbackUpdateData (p : PlaybackProxy) (d : PlaybackPatch) : PlaybackProxy :=
  let p := match d.id with | some v => { p with id := v } | none => p
  let p := match d.media_uri with | some v => { p with media_uri := v } | none => p
  match d.state with | some v => { p with state := v } | none => p

/-- A partial live-recording payload (`Partial<LiveRecording>`), reduced. -/
structure RecordingPatch where
  name : Option String
  format : Option String
  state : Option String
deriving DecidableEq, Repr

/-- A `LiveRecordingInstance` snapshot (reduced). -/
structure RecordingProxy where
  name : String
  format : String
  state : String
deriving DecidableEq, Repr

/-- `LiveRecordingInstance.updateData` on the modelled fields, in source
order. -/
def recordingUpdateData (p : RecordingProxy) (d : RecordingPatch) : RecordingProxy :=
  let p := match d.name with | some v => { p with name := v } | none => p
  let p := match d.format with | some v => { p with format := v } | none => p
  match d.state with | some v => { p with state := v } | none => p

/-- `Map.get` on a reference-indexed proxy store. -/
def refGet {α : Type} : List (Nat × α) → Nat → Option α
  | [], _ => none
  | (k, v) :: rest, key => if k = key then some v else refGet rest key

/-- `Map.set` on a reference-indexed proxy store. -/
def refSet {α : Type} : List (Nat × α) → Nat → α → List (Nat × α)
  | [], key, v => [(key, v)]
  | (k, w) :: rest, key, v =>
    if k = key then (k, v) :: rest else (k, w) :: refSet rest key v

/-- The whole `AriClient` session: the channel slice (`ClientState`) plus
the bridge, playback and recording stores and registries, a reference
counter for the three added stores, and the shared UUID counter for
their generated identifiers. -/
structure SessionState where
  client : ClientState
  bridgeStore : List (Nat × BridgeProxy)
  bridgeInstances : List (String × Nat)
  playbackStore : List (Nat × PlaybackProxy)
  playbackInstances : List (String × Nat)
  recordingStore : List (Nat × RecordingProxy)
  recordingInstances : List (String × Nat)
  nextRef : Nat
  nextUuid : Nat
deriving DecidableEq, Repr

/-- A freshly constructed session. -/
def SessionState.init : SessionState :=
  { client := ClientState.init, bridgeStore := [], bridgeInstances := [],
    playbackStore := [], playbackInstances := [], recordingStore := [],
    recordingInstances := [], nextRef := 0, nextUuid := 0 }

/-- The `BridgeInstance` constructor: `this.id = id || crypto.randomUUID()`,
`if (data) this.updateData(data)`, then
`this.client._registerBridgeInstance(this.id, this)`. -/
def bridgeInstanceNew (s : SessionState) (id : Option String) (data : Option BridgePatch) :
    SessionState × Nat :=
  let cid_s : String × SessionState :=
    match id with
    | some v =>
      if v ≠ "" then (v, s)
      else (randomUUID s.nextUuid, { s with nextUuid := s.nextUuid + 1 })
    | none => (randomUUID s.nextUuid, { s with nextUuid := s.nextUuid + 1 })
  let cid := cid_s.1
  let s := cid_s.2
  let p0 : BridgeProxy := { id := cid, bridge_type := "mixing", name := "" }
  let p := match data with | some d => bridgeUpdateData p0 d | none => p0
  let ref := s.nextRef
  ({ s with
      bridgeStore := refSet s.bridgeStore ref p,
      bridgeInstances := mapSet s.bridgeInstances p.id ref,
      nextRef := ref + 1 }, ref)

/-- The `if (data) existing.updateData(data)` step of `_getBridgeInstance`
on a registered instance. -/
def bridgeMergeExisting (s : SessionState) (ref : Nat) (data : Option BridgePatch) :
    SessionState :=
  match data with
  | some d =>
    match refGet s.bridgeStore ref with
    | some p => { s with bridgeStore := refSet s.bridgeStore ref (bridgeUpdateData p d) }
    | none => s
  | none => s

/-- `AriClient._getBridgeInstance(id?, data?)` (the bridge `getOrCreate`):
same lookup algorithm as `Channel`. -/
def getBridgeInstance (s : SessionState) (id : Option String) (data : Option BridgePatch) :
    SessionState × Nat :=
  let existingId : Option String :=
    if truthy id then id else data.bind (fun d => d.id)
  if truthy existingId then
    match existingId with
    | some eid =>
      match mapGet s.bridgeInstances eid with
      | some ref => (bridgeMergeExisting s ref data, ref)
      | none => bridgeInstanceNew s id data
    | none => bridgeInstanceNew s id data
  else bridgeInstanceNew s id data

/-- The `PlaybackInstance` constructor: `this.id = id || crypto.randomUUID()`,
`if (data) this.updateData(data)`, then
`this.client._registerPlaybackInstance(this.id, this)`. -/
def playbackInstanceNew (s : SessionState) (id : Option String) (data : Option PlaybackPatch) :
    SessionState × Nat :=
  let cid_s : String × SessionState :=
    match id with
    | some v =>
      if v ≠ "" then (v, s)
      else (randomUUID s.nextUuid, { s with nextUuid := s.nextUuid + 1 })
    | none => (randomUUID s.nextUuid, { s with nextUuid := s.nextUuid + 1 })
  let cid := cid_s.1
  let s := cid_s.2
  let p0 : PlaybackProxy := { id := cid, media_uri := "", state := "queued" }
  let p := match data with | some d => playbackUpdateData p0 d | none => p0
  let ref := s.nextRef
  ({ s with
      playbackStore := refSet s.playbackStore ref p,
      playbackInstances := mapSet s.playbackInstances p.id ref,
      nextRef := ref + 1 }, ref)

/-- The `if (data) existing.updateData(data)` step of `Playback` on a
registered instance. -/
def playbackMergeExisting (s : SessionState) (ref : Nat) (data : Option PlaybackPatch) :
    SessionState :=
  match data with
  | some d =>
    match refGet s.playbackStore ref with
    | some p => { s with playbackStore := refSet s.playbackStore ref (playbackUpdateData p d) }
    | none => s
  | none => s

/-- `AriClient.Playback(id?, data?)` (the playback `getOrCreate`): same
lookup algorithm as `Channel`. -/
def clientPlayback (s : SessionState) (id : Option String) (data : Option PlaybackPatch) :
    SessionState × Nat :=
  let existingId : Option String :=
    if truthy id then id else data.bind (fun d => d.id)
  if truthy existingId then
    match existingId with
    | some eid =>
      match mapGet s.playbackInstances eid with
      | some ref => (playbackMergeExisting s ref data, ref)
      | none => playbackInstanceNew s id data
    | none => playbackInstanceNew s id data
  else playbackInstanceNew s id data

/-- The `LiveRecordingInstance` constructor: `this.name = name`,
`if (data) this.updateData(data)`, then
`this.client._registerRecordingInstance(this.name, this)`. -/
def liveRecordingInstanceNew (s : SessionState) (name : String)
    (data : Option RecordingPatch) : SessionState × Nat :=
  let p0 : RecordingProxy := { name := name, format := "", state := "queued" }
  let p := match data with | some d => recordingUpdateData p0 d | none => p0
  let ref := s.nextRef
  ({ s with
      recordingStore := refSet s.recordingStore ref p,
      recordingInstances := mapSet s.recordingInstances p.name ref,
      nextRef := ref + 1 }, ref)

/-- The `if (data) existing.updateData(data)` step of `LiveRecording` on a
registered instance. -/
def recordingMergeExisting (s : SessionState) (ref : Nat) (data : Option RecordingPatch) :
    SessionState :=
  match data with
  | some d =>
    match refGet s.recordingStore ref with
    | some p =>
      { s with recordingStore := refSet s.recordingStore ref (recordingUpdateData p d) }
    | none => s
  | none => s

/-- `AriClient.LiveRecording(name, data?)` (the recording `getOrCreate`):
look the required name up directly; construct on a miss. -/
def clientLiveRecording (s : SessionState) (name : String) (data : Option RecordingPatch) :
    SessionState × Nat :=
  match mapGet s.recordingInstances name with
  | some ref => (recordingMergeExisting s ref data, ref)
  | none => liveRecordingInstanceNew s name data

/-- `AriClient.Channel` lifted to the session: the channel slice of the
session is the `ClientState` modelled above. -/
def sessionChannel (s : SessionState) (id : Option String) (data : Option ChannelPatch) :
    SessionState × Nat :=
  ({ s with client := (clientChannel s.client id data).1 }, (clientChannel s.client id data).2)

/-- The entity kinds whose proxies `AriClient` registers. -/
inductive EntityKind where
  | channel
  | bridge
  | playback
  | recording
deriving DecidableEq, Repr

/-- The kind's factory/lookup (`getOrCreate(K, I)`): `Channel`,
`_getBridgeInstance`, `Playback`, or `LiveRecording`, with the
identifier and no initial data. -/
def getOrCreate (s : SessionState) : EntityKind → String → SessionState × Nat
  | .channel, i => sessionChannel s (some i) none
  | .bridge, i => getBridgeInstance s (some i) none
  | .playback, i => clientPlayback s (some i) none
  | .recording, i => clientLiveRecording s i none

/-- The kind's registry map inside a session. -/
def registryOf (s : SessionState) : EntityKind → List (String × Nat)
  | .channel => s.client.channelInstances
  | .bridge => s.bridgeInstances
  | .playback => s.playbackInstances
  | .recording => s.recordingInstances

/-- The session operations that touch any of the four registries or
stores: the channel operations modelled above, the three added kinds'
factories, their routing snapshot updates (`routeEventToInstances`
sections, whose `_emit` invokes listeners and cannot touch a registry),
their `removeAllListeners` unregistrations, and `stop()` (which clears
all four registries). -/
inductive SessionOp where
  | channelOp (op : ClientOp)
  | bridgeCall (id : Option String) (data : Option BridgePatch)
  | bridgeRoute (d : BridgePatch)
  | bridgeRemoveAll (ref : Nat)
  | playbackCall (id : Option String) (data : Option PlaybackPatch)
  | playbackRoute (d : PlaybackPatch)
  | playbackRemoveAll (ref : Nat)
  | recordingCall (name : String) (data : Option RecordingPatch)
  | recordingRoute (d : RecordingPatch)
  | recordingRemoveAll (ref : Nat)
  | stopOp
deriving DecidableEq, Repr

/-- Apply one session operation. -/
def applySessionOp (s : SessionState) : SessionOp → SessionState
  | .channelOp op => { s with client := applyOp s.client op }
  | .bridgeCall id data => (getBridgeInstance s id data).1
  | .bridgeRoute d =>
    match d.id with
    | some i =>
      match mapGet s.bridgeInstances i with
      | some ref =>
        match refGet s.bridgeStore ref with
        | some p => { s with bridgeStore := refSet s.bridgeStore ref (bridgeUpdateData p d) }
        | none => s
      | none => s
    | none => s
  | .bridgeRemoveAll ref =>
    match refGet s.bridgeStore ref with
    | some p => { s with bridgeInstances := mapDelete s.bridgeInstances p.id }
    | none => s
  | .playbackCall id data => (clientPlayback s id data).1
  | .playbackRoute d =>
    match d.id with
    | some i =>
      match mapGet s.playbackInstances i with
      | some ref =>
        match refGet s.playbackStore ref with
        | some p =>
          { s with playbackStore := refSet s.playbackStore ref (playbackUpdateData p d) }
        | none => s
      | none => s
    | none => s
  | .playbackRemoveAll ref =>
    match refGet s.playbackStore ref with
    | some p => { s with playbackInstances := mapDelete s.playbackInstances p.id }
    | none => s
  | .recordingCall name data => (clientLiveRecording s name data).1
  | .recordingRoute d =>
    match d.name with
    | some i =>
      match mapGet s.recordingInstances i with
      | some ref =>
        match refGet s.recordingStore ref with
        | some p =>
          { s with recordingStore := refSet s.recordingStore ref (recordingUpdateData p d) }
        | none => s
      | none => s
    | none => s
  | .recordingRemoveAll ref =>
    match refGet s.recordingStore ref with
    | some p => { s with recordingInstances := mapDelete s.recordingInstances p.name }
    | none => s
  | .stopOp =>
    { s with
        client := { s.client with channelInstances := [] },
        bridgeInstances := [], playbackInstances := [], recordingInstances := [] }

/-- Run a sequence of session operations. -/
def runSession (s : SessionState) : List SessionOp → SessionState
  | [] => s
  | op :: rest => runSession (applySessionOp s op) rest

end AsteriskAri

namespace AsteriskAri

/-- C1 (counterexample): with `circuitBreakerThreshold = 2`, reach half-open
(two failures open the breaker at time 0, the cooldown elapses at 30000),
then apply a single operation failure: the breaker stays half-open instead
of transitioning back to open, refuting the claim for thresholds above 1. -/
theorem half_open_single_failure_not_reopen :
    ((onFailure { circuitBreakerThreshold := 2 }
        (updateCircuitState { circuitBreakerThreshold := 2 }
          (onFailure { circuitBreakerThreshold := 2 }
            (onFailure { circuitBreakerThreshold := 2 } BreakerState.init 0) 0) 30000)
        30001).circuitState ≠ CircuitState.opened) ∧
    (updateCircuitState { circuitBreakerThreshold := 2 }
        (onFailure { circuitBreakerThreshold := 2 }
          (onFailure { circuitBreakerThreshold := 2 } BreakerState.init 0) 0) 30000).circuitState
      = CircuitState.halfOpen := by
  decide

/-- C1 (amended): in the half-open state, an operation failure transitions
the breaker back to open with a fresh open timestamp exactly when it brings
the failure counter (reset to 0 on entering half-open) up to
`circuitBreakerThreshold`; in particular a single failure re-opens the
breaker precisely for configurations with threshold ≤ 1. -/
theorem half_open_failure_reopens_iff (cfg : QueueConfig) (s : BreakerState) (now : Nat)
    (h : s.circuitState = CircuitState.halfOpen) :
    ((onFailure cfg s now).circuitState = CircuitState.opened ↔
      cfg.circuitBreakerThreshold ≤ s.failureCount + 1) ∧
    (cfg.circuitBreakerThreshold ≤ s.failureCount + 1 →
      onFailure cfg s now = ⟨s.failureCount + 1, CircuitState.opened, now⟩) := by
  by_cases hc : cfg.circuitBreakerThreshold ≤ s.failureCount + 1
  · constructor
    · simp [onFailure, hc]
    · intro _
      simp [onFailure, hc]
  · constructor
    · simp only [onFailure]
      rw [if_neg (by omega)]
      simp [h, hc]
    · intro hcontra
      exact absurd hcontra hc

/-- Witness for the amended C1: threshold 1, a half-open breaker with the
counter at 0, one failure at time 5 → open with open timestamp 5. -/
theorem half_open_failure_reopens_witness :
    (onFailure { circuitBreakerThreshold := 1 } ⟨0, CircuitState.halfOpen, 0⟩ 5)
      = ⟨1, CircuitState.opened, 5⟩ :=
  (half_open_failure_reopens_iff { circuitBreakerThreshold := 1 }
    ⟨0, CircuitState.halfOpen, 0⟩ 5 rfl).2 (by decide)

/-- C3: five consecutive finally-failed operations on a default-configured
queue (threshold 5) open the breaker and record the trip time; while the
cooldown has not elapsed, every `enqueue` rejects immediately with the
breaker-open error, adds nothing to the pending list, and never invokes
the supplied operation function (the invocation counter stays at 5). -/
theorem breaker_trips_then_rejects :
    (c3state.breaker = ⟨5, CircuitState.opened, 7⟩ ∧
      c3state.pending = [] ∧ c3state.invocations = 5) ∧
    (∀ (t : Nat) (beh : Nat → Outcome Nat), (t : Int) - 7 < 30000 →
      (enqueue {} { c3state with now := t } beh).2 = EnqueueResult.rejectedBreakerOpen ∧
      (enqueue {} { c3state with now := t } beh).1.pending = [] ∧
      (enqueue {} { c3state with now := t } beh).1.invocations = 5) := by
  refine ⟨⟨rfl, rfl, rfl⟩, ?_⟩
  intro t beh h
  have hb : ({ c3state with now := t } : QState Nat).breaker = ⟨5, CircuitState.opened, 7⟩ := rfl
  have hc : updateCircuitState {} ({ c3state with now := t } : QState Nat).breaker t
      = ⟨5, CircuitState.opened, 7⟩ := by
    rw [hb]
    simp only [updateCircuitState]
    rw [if_pos trivial, if_neg (by push_cast; omega)]
  simp only [enqueue, hc]
  exact ⟨rfl, rfl, rfl⟩

/-- Witness for C3: an `enqueue` at clock 100 (cooldown not elapsed) is
rejected with the breaker-open error and invokes nothing. -/
theorem breaker_trips_then_rejects_witness :
    (enqueue {} { c3state with now := 100 } c4wBehavior).2 = EnqueueResult.rejectedBreakerOpen ∧
    (enqueue {} { c3state with now := 100 } c4wBehavior).1.invocations = 5 := by
  refine ⟨?_, ?_⟩
  · exact ((breaker_trips_then_rejects).2 100 c4wBehavior (by decide)).1
  · exact ((breaker_trips_then_rejects).2 100 c4wBehavior (by decide)).2.2

/-- C4: (i) every retryably-failed item under the retry cap has its counter
incremented, waits `retryDelay × retryCounter` (linear backoff, the clock
advances by exactly that), and is re-inserted at the front of the pending
list; (ii) with the default `maxRetries = 3`, an operation failing
retryably twice then succeeding resolves with the success value after
exactly 3 invocations of the operation function. -/
theorem retry_requeues_front_and_scenario :
    (∀ (α : Type) (cfg : QueueConfig) (s : QState α) (item : QItem α) (e : JsError),
      item.behavior item.invoked = Outcome.failure e →
      isRetryable e = true →
      item.retries < cfg.maxRetries →
      (updateCircuitState cfg s.breaker
          (s.now + cfg.retryDelay * (item.retries + 1))).circuitState ≠ CircuitState.opened →
      executeRequest cfg s item =
        ({ pending := ⟨item.retries + 1, item.invoked + 1, item.behavior⟩ :: s.pending,
           breaker := updateCircuitState cfg s.breaker (s.now + cfg.retryDelay * (item.retries + 1)),
           now := s.now + cfg.retryDelay * (item.retries + 1),
           invocations := s.invocations + 1 }, ExecResult.requeued)) ∧
    ((runItem {} 10 (QState.init Nat 0) ⟨0, 0, c4behavior⟩).2 = some (ExecResult.resolved 42) ∧
      (runItem {} 10 (QState.init Nat 0) ⟨0, 0, c4behavior⟩).1.invocations = 3) := by
  constructor
  · intro α cfg s item e hbeh hret hlt hopen
    simp only [executeRequest, hbeh]
    rw [if_pos ⟨hlt, hret⟩, if_neg hopen]
  · exact ⟨rfl, rfl⟩

/-- Witness for C4: a fresh item failing with a socket error is requeued at
the front with counter 1 after a 1000 ms wait. -/
theorem retry_requeues_front_witness :
    executeRequest {} (QState.init Nat 0) ⟨0, 0, c4wBehavior⟩ =
      ({ pending := [⟨1, 1, c4wBehavior⟩],
         breaker := updateCircuitState {} BreakerState.init 1000,
         now := 1000, invocations := 1 }, ExecResult.requeued) := by
  exact (retry_requeues_front_and_scenario.1 Nat {} (QState.init Nat 0) ⟨0, 0, c4wBehavior⟩
    ⟨"socket hang up"⟩ rfl (by decide) (by decide) (by decide))

/-- When none of the listeners registered for the emitted type throws, the
inner Node dispatch invokes each of them once, in order, and returns
without an exception. -/
theorem runExactListeners_no_throw (args : List Nat) :
    ∀ ls : List EvListener, (∀ l ∈ ls, l.throws = false) →
      runExactListeners ls args = (ls.map (fun l => ⟨l.lid, args⟩), false)
  | [], _ => rfl
  | l :: rest, h => by
    have hl : l.throws = false := h l (List.mem_cons_self l rest)
    have hrest := runExactListeners_no_throw args rest (fun x hx => h x (List.mem_cons_of_mem l hx))
    simp [runExactListeners, hl, hrest]

/-- C2 (counterexample): with two exact-type listeners for "X" (the first
of which throws) and one wildcard listener, `emit("X", 7)` propagates the
exception to the caller and neither the second exact-type listener nor the
wildcard listener is ever invoked — the dispatcher only isolates wildcard
listeners, not exact-type ones. -/
theorem emit_exact_throw_propagates :
    emit ⟨[("X", ⟨1, true⟩), ("X", ⟨2, false⟩)], [⟨3, false⟩]⟩ "X" 7 []
      = ⟨[⟨1, [7]⟩], true, none⟩ ∧
    ∀ c ∈ (emit ⟨[("X", ⟨1, true⟩), ("X", ⟨2, false⟩)], [⟨3, false⟩]⟩ "X" 7 []).calls,
      c.lid ≠ 2 ∧ c.lid ≠ 3 := by
  decide

/-- C2 (amended): exceptions thrown by wildcard listeners are caught,
logged and isolated — whenever no exact-type listener of the emitted type
throws, `emit` returns without propagating and every exact-type listener
and every wildcard listener (throwing or not) is invoked exactly once, in
order; an exception from an exact-type listener, by contrast, propagates
out of `emit` (see the counterexample). -/
theorem emit_wildcard_exceptions_isolated (st : EmitterState) (ty : String)
    (payload : Nat) (extra : List Nat)
    (h : ∀ l ∈ listenersFor st ty, l.throws = false) :
    (emit st ty payload extra).threw = false ∧
    (emit st ty payload extra).calls =
      (listenersFor st ty ++ st.wildcard).map (fun l => ⟨l.lid, payload :: extra⟩) := by
  have he := runExactListeners_no_throw (payload :: extra) (listenersFor st ty) h
  constructor
  · simp [emit, he]
  · simp [emit, he, runWildcardListeners]

/-- Witness for the amended C2: one non-throwing exact listener, one
throwing wildcard listener followed by another wildcard listener — all
three run exactly once and nothing propagates. -/
theorem emit_wildcard_exceptions_isolated_witness :
    (emit ⟨[("X", ⟨1, false⟩)], [⟨2, true⟩, ⟨3, false⟩]⟩ "X" 7 []).threw = false ∧
    (emit ⟨[("X", ⟨1, false⟩)], [⟨2, true⟩, ⟨3, false⟩]⟩ "X" 7 []).calls =
      [⟨1, [7]⟩, ⟨2, [7]⟩, ⟨3, [7]⟩] := by
  have := emit_wildcard_exceptions_isolated ⟨[("X", ⟨1, false⟩)], [⟨2, true⟩, ⟨3, false⟩]⟩
    "X" 7 [] (by decide)
  exact ⟨this.1, by rw [this.2]; decide⟩

/-- C8 (counterexample): with one exact-type listener for "X" and one
wildcard listener, `emit("X", 7, 9)` passes the extra argument to the
wildcard listener as well — it is invoked with `(7, 9)`, not with the
payload only. -/
theorem emit_wildcard_receives_extra :
    (emit ⟨[("X", ⟨1, false⟩)], [⟨2, false⟩]⟩ "X" 7 [9]).calls
      = [⟨1, [7, 9]⟩, ⟨2, [7, 9]⟩] ∧
    (emit ⟨[("X", ⟨1, false⟩)], [⟨2, false⟩]⟩ "X" 7 [9]).calls
      ≠ [⟨1, [7, 9]⟩, ⟨2, [7]⟩] := by
  decide

/-- C8 (amended): with exactly one exact-type listener registered for type
`x` and one wildcard listener, `emit(x, payload, extra)` invokes the exact
listener exactly once with `(payload, extra)` and the wildcard listener
exactly once with the same arguments `(payload, extra)`; `emit(y, payload)`
for a type `y` with no exact-type listener invokes only the wildcard
listener, with `(payload)`. -/
theorem wildcard_dispatch_counts (x y : String) (l1 l2 : EvListener) (payload e : Nat)
    (h1 : l1.throws = false) (h2 : l2.throws = false) (hxy : y ≠ x) :
    (emit ⟨[(x, l1)], [l2]⟩ x payload [e]).calls
      = [⟨l1.lid, [payload, e]⟩, ⟨l2.lid, [payload, e]⟩] ∧
    (emit ⟨[(x, l1)], [l2]⟩ y payload []).calls = [⟨l2.lid, [payload]⟩] := by
  constructor
  · simp [emit, listenersFor, runExactListeners, h1, runWildcardListeners]
  · have hyx : x ≠ y := fun hh => hxy hh.symm
    simp [emit, listenersFor, runExactListeners, runWildcardListeners, hyx]

/-- Witness for the amended C8 at listeners 1 and 2, types "X"/"Y",
payload 7, extra 9. -/
theorem wildcard_dispatch_counts_witness :
    (emit ⟨[("X", ⟨1, false⟩)], [⟨2, false⟩]⟩ "X" 7 [9]).calls
      = [⟨1, [7, 9]⟩, ⟨2, [7, 9]⟩] ∧
    (emit ⟨[("X", ⟨1, false⟩)], [⟨2, false⟩]⟩ "Y" 7 []).calls = [⟨2, [7]⟩] :=
  wildcard_dispatch_counts "X" "Y" ⟨1, false⟩ ⟨2, false⟩ 7 9 rfl rfl (by decide)

/-- `Math.min` returns its first argument when that is the smaller one. -/
theorem mathMin_left {a b : ℚ} (h : a ≤ b) : mathMin a b = a := by simp [mathMin, h]

/-- `Math.min` returns its second argument when the first is larger. -/
theorem mathMin_right {a b : ℚ} (h : ¬ a ≤ b) : mathMin a b = b := by simp [mathMin, h]

/-- C5: every effective `scheduleReconnect` emits
`reconnecting{attempt_count + 1, min(initial * multiplier ^ attempt_count, max)}`
and increments the attempt count; a successful open resets the attempt
count to 0 and clears the re-entrancy flag; for
`{initial=1000, multiplier=1.5, max=30000}` the delay at attempt counts
0,1,2,3 is 1000, 1500, 2250, 3375, the delay is capped at 30000 for high
counts (9, 20), a trace of three scheduled reconnects with no successful
open in between emits delays 1000, 1500, 2250, and after any successful
open the next scheduled delay is again 1000. -/
theorem reconnect_backoff_formula :
    (∀ (cfg : WSConfig) (s : WSState),
      s.reconnecting = false → s.intentionalClose = false →
      scheduleReconnect cfg s =
        ({ s with reconnecting := true,
                  reconnectAttempts := s.reconnectAttempts + 1,
                  reconnectTimer := true },
          [.reconnectingEv (s.reconnectAttempts + 1)
            (mathMin (cfg.reconnectInterval *
              cfg.reconnectBackoffMultiplier ^ s.reconnectAttempts)
              cfg.maxReconnectInterval)])) ∧
    (∀ (cfg : WSConfig) (s : WSState),
      wsStep cfg s .openEvent =
        ({ s with reconnectAttempts := 0, reconnecting := false }, [.connectedEv])) ∧
    (getReconnectDelay wsCfg5 ⟨false, 0, false, false⟩ = 1000 ∧
      getReconnectDelay wsCfg5 ⟨false, 1, false, false⟩ = 1500 ∧
      getReconnectDelay wsCfg5 ⟨false, 2, false, false⟩ = 2250 ∧
      getReconnectDelay wsCfg5 ⟨false, 3, false, false⟩ = 3375 ∧
      getReconnectDelay wsCfg5 ⟨false, 9, false, false⟩ = 30000 ∧
      getReconnectDelay wsCfg5 ⟨false, 20, false, false⟩ = 30000) ∧
    ((wsRun wsCfg5 WSState.init
        [.closeEvent, .timerFire false, .disconnectCall, .connectCall,
         .closeEvent, .timerFire false, .disconnectCall, .connectCall,
         .closeEvent]).2.filterMap
        (fun e => match e with | WSEmit.reconnectingEv a d => some (a, d) | _ => none)
      = [(1, 1000), (2, 1500), (3, 2250)]) ∧
    (∀ s : WSState, getReconnectDelay wsCfg5 (wsStep wsCfg5 s .openEvent).1 = 1000) := by
  refine ⟨?_, ?_, ⟨?_, ?_, ?_, ?_, ?_, ?_⟩, ?_, ?_⟩
  · intro cfg s h1 h2
    simp [scheduleReconnect, getReconnectDelay, h1, h2]
  · intro cfg s
    rfl
  · show mathMin ((1000 : ℚ) * (3 / 2) ^ (0 : Nat)) 30000 = 1000
    rw [mathMin_left (by norm_num)]
    norm_num
  · show mathMin ((1000 : ℚ) * (3 / 2) ^ (1 : Nat)) 30000 = 1500
    rw [mathMin_left (by norm_num)]
    norm_num
  · show mathMin ((1000 : ℚ) * (3 / 2) ^ (2 : Nat)) 30000 = 2250
    rw [mathMin_left (by norm_num)]
    norm_num
  · show mathMin ((1000 : ℚ) * (3 / 2) ^ (3 : Nat)) 30000 = 3375
    rw [mathMin_left (by norm_num)]
    norm_num
  · show mathMin ((1000 : ℚ) * (3 / 2) ^ (9 : Nat)) 30000 = 30000
    rw [mathMin_right (by norm_num)]
  · show mathMin ((1000 : ℚ) * (3 / 2) ^ (20 : Nat)) 30000 = 30000
    rw [mathMin_right (by norm_num)]
  · simp only [wsRun, wsStep, scheduleReconnect, getReconnectDelay, mathMin, wsCfg5,
      WSState.init]
    norm_num
    rfl
  · intro s
    show mathMin ((1000 : ℚ) * (3 / 2) ^ (0 : Nat)) 30000 = 1000
    rw [mathMin_left (by norm_num)]
    norm_num

/-- Witness for C5: an effective schedule from attempt count 1 emits
`reconnecting{2, 1500}` and moves the count to 2. -/
theorem reconnect_backoff_formula_witness :
    scheduleReconnect wsCfg5 ⟨false, 1, false, false⟩ =
      (⟨true, 2, true, false⟩, [.reconnectingEv 2 1500]) := by
  have h := reconnect_backoff_formula.1 wsCfg5 ⟨false, 1, false, false⟩ rfl rfl
  rw [h]
  have h15 : mathMin ((1000 : ℚ) * (3 / 2) ^ (1 : Nat)) 30000 = 1500 := by
    rw [mathMin_left (by norm_num)]
    norm_num
  show (_, [WSEmit.reconnectingEv 2 (mathMin ((1000 : ℚ) * (3 / 2) ^ (1 : Nat)) 30000)]) = _
  rw [h15]

/-- After an intentional disconnect (flag set, timer cancelled), every
non-`connect` step keeps the flag set and the timer cancelled, and emits
no `reconnecting`/`reconnected` notification. -/
theorem wsStep_calm (cfg : WSConfig) (s : WSState) (st : WSStep)
    (h1 : s.intentionalClose = true) (h2 : s.reconnectTimer = false)
    (hst : st ≠ WSStep.connectCall) :
    ((wsStep cfg s st).1.intentionalClose = true ∧
      (wsStep cfg s st).1.reconnectTimer = false) ∧
    ∀ e ∈ (wsStep cfg s st).2, notReconnectEmit e = true := by
  cases st with
  | closeEvent => simp [wsStep, h1, h2, notReconnectEmit]
  | openEvent => simp [wsStep, h1, h2, notReconnectEmit]
  | errorEvent => simp [wsStep, h1, h2, notReconnectEmit]
  | timerFire success => simp [wsStep, h1, h2, notReconnectEmit]
  | disconnectCall => simp [wsStep, notReconnectEmit]
  | connectCall => exact absurd rfl hst

/-- C9: after `disconnect()` no `reconnecting` or `reconnected`
notification is ever emitted and no reconnect timer can fire, whatever
sequence of socket close/open/error events and timer callbacks follows,
as long as the caller does not call `connect()` again. -/
theorem no_reconnect_after_disconnect (cfg : WSConfig) (s0 : WSState) (steps : List WSStep)
    (hnc : ∀ st ∈ steps, st ≠ WSStep.connectCall) :
    ∀ e ∈ (wsRun cfg (wsStep cfg s0 .disconnectCall).1 steps).2,
      notReconnectEmit e = true := by
  have hstart : (wsStep cfg s0 .disconnectCall).1.intentionalClose = true ∧
      (wsStep cfg s0 .disconnectCall).1.reconnectTimer = false := by
    simp [wsStep]
  suffices h : ∀ (l : List WSStep) (s : WSState),
      (∀ st ∈ l, st ≠ WSStep.connectCall) →
      s.intentionalClose = true → s.reconnectTimer = false →
      ∀ e ∈ (wsRun cfg s l).2, notReconnectEmit e = true by
    exact h steps _ hnc hstart.1 hstart.2
  intro l
  induction l with
  | nil =>
    intro s _ _ _ e he
    simp [wsRun] at he
  | cons st rest ih =>
    intro s hl h1 h2 e he
    have hst : st ≠ WSStep.connectCall := hl st (List.mem_cons_self st rest)
    have hcalm := wsStep_calm cfg s st h1 h2 hst
    simp only [wsRun, List.mem_append] at he
    rcases he with he | he
    · exact hcalm.2 e he
    · exact ih ((wsStep cfg s st).1) (fun x hx => hl x (List.mem_cons_of_mem st hx))
        hcalm.1.1 hcalm.1.2 e he

/-- Witness for C9: after a disconnect, a close event, an error, an open
and a (vacuous) timer callback emit nothing reconnect-related. -/
theorem no_reconnect_after_disconnect_witness :
    ((wsRun wsCfg5 (wsStep wsCfg5 WSState.init WSStep.disconnectCall).1
        [WSStep.closeEvent, WSStep.errorEvent, WSStep.openEvent,
         WSStep.timerFire true, WSStep.closeEvent]).2.all notReconnectEmit) = true :=
  List.all_eq_true.mpr
    (no_reconnect_after_disconnect wsCfg5 WSState.init
      [WSStep.closeEvent, WSStep.errorEvent, WSStep.openEvent,
       WSStep.timerFire true, WSStep.closeEvent]
      (by decide))

end AsteriskAri

namespace AsteriskAri

/-- Registry keys of the empty map. -/
theorem regKeys_nil : regKeys [] = [] := rfl

/-- Registry keys of a cons cell. -/
theorem regKeys_cons (a : String) (w : Nat) (tl : List (String × Nat)) :
    regKeys ((a, w) :: tl) = a :: regKeys tl := rfl

/-- A key present after `Map.set` was the written key or already present. -/
theorem regKeys_mapSet_mem {m : List (String × Nat)} {k x : String} {v : Nat}
    (h : x ∈ regKeys (mapSet m k v)) : x = k ∨ x ∈ regKeys m := by
  induction m with
  | nil =>
    simp only [mapSet, regKeys_cons, regKeys_nil, List.mem_cons, List.not_mem_nil,
      or_false] at h
    exact Or.inl h
  | cons hd tl ih =>
    obtain ⟨a, w⟩ := hd
    rw [regKeys_cons, List.mem_cons]
    by_cases hk : a = k
    · rw [mapSet, if_pos hk, regKeys_cons, List.mem_cons] at h
      rcases h with h | h
      · exact Or.inl (h.trans hk)
      · exact Or.inr (Or.inr h)
    · rw [mapSet, if_neg hk, regKeys_cons, List.mem_cons] at h
      rcases h with h | h
      · exact Or.inr (Or.inl h)
      · rcases ih h with h | h
        · exact Or.inl h
        · exact Or.inr (Or.inr h)

/-- `Map.set` preserves key uniqueness. -/
theorem regKeys_mapSet_nodup {m : List (String × Nat)} (k : String) (v : Nat)
    (h : (regKeys m).Nodup) : (regKeys (mapSet m k v)).Nodup := by
  induction m with
  | nil => simp [mapSet, regKeys_cons, regKeys_nil]
  | cons hd tl ih =>
    obtain ⟨a, w⟩ := hd
    rw [regKeys_cons, List.nodup_cons] at h
    by_cases hk : a = k
    · rw [mapSet, if_pos hk, regKeys_cons, List.nodup_cons]
      exact h
    · rw [mapSet, if_neg hk, regKeys_cons, List.nodup_cons]
      refine ⟨fun hmem => ?_, ih h.2⟩
      rcases regKeys_mapSet_mem hmem with hh | hh
      · exact hk hh
      · exact h.1 hh

/-- A key present after `Map.delete` was already present. -/
theorem regKeys_mapDelete_mem {m : List (String × Nat)} {k x : String}
    (h : x ∈ regKeys (mapDelete m k)) : x ∈ regKeys m := by
  induction m with
  | nil => exact h
  | cons hd tl ih =>
    obtain ⟨a, w⟩ := hd
    rw [regKeys_cons, List.mem_cons]
    by_cases hk : a = k
    · rw [mapDelete, if_pos hk] at h
      exact Or.inr h
    · rw [mapDelete, if_neg hk, regKeys_cons, List.mem_cons] at h
      rcases h with h | h
      · exact Or.inl h
      · exact Or.inr (ih h)

/-- `Map.delete` preserves key uniqueness. -/
theorem regKeys_mapDelete_nodup {m : List (String × Nat)} (k : String)
    (h : (regKeys m).Nodup) : (regKeys (mapDelete m k)).Nodup := by
  induction m with
  | nil => exact h
  | cons hd tl ih =>
    obtain ⟨a, w⟩ := hd
    rw [regKeys_cons, List.nodup_cons] at h
    by_cases hk : a = k
    · rw [mapDelete, if_pos hk]
      exact h.2
    · rw [mapDelete, if_neg hk, regKeys_cons, List.nodup_cons]
      exact ⟨fun hmem => h.1 (regKeys_mapDelete_mem hmem), ih h.2⟩

/-- The `ChannelInstance` constructor adds exactly one registry entry
(via `Map.set`), so it preserves key uniqueness. -/
theorem channelInstanceNew_nodup (c : ClientState) (id : Option String)
    (data : Option ChannelPatch) (h : (regKeys c.channelInstances).Nodup) :
    (regKeys (channelInstanceNew c id data).1.channelInstances).Nodup := by
  unfold channelInstanceNew
  rcases id with _ | s
  · exact regKeys_mapSet_nodup _ _ h
  · dsimp only
    by_cases hs : s ≠ ""
    · rw [if_pos hs]
      exact regKeys_mapSet_nodup _ _ h
    · rw [if_neg hs]
      exact regKeys_mapSet_nodup _ _ h

/-- `_emit` only appends to the call log. -/
theorem channelEmit_instances (c : ClientState) (ref : Nat) (e : ChanEvent) :
    (channelEmit c ref e).channelInstances = c.channelInstances := by
  unfold channelEmit
  split <;> rfl

/-- `.on` only touches the proxy store. -/
theorem channelOn_instances (c : ClientState) (ref : Nat) (ev : String) (lid : Nat) :
    (channelOn c ref ev lid).channelInstances = c.channelInstances := by
  unfold channelOn
  split <;> rfl

/-- Merging data into a registered instance only touches the proxy store. -/
theorem mergeExisting_instances (c : ClientState) (ref : Nat) (data : Option ChannelPatch) :
    (mergeExisting c ref data).channelInstances = c.channelInstances := by
  unfold mergeExisting
  split
  · split <;> rfl
  · rfl

/-- Routing never changes the registry: it updates snapshots and invokes
listeners only. -/
theorem routeEventToInstances_instances (c : ClientState) (e : ChanEvent) :
    (routeEventToInstances c e).1.channelInstances = c.channelInstances := by
  unfold routeEventToInstances
  split
  · split
    · split
      · show (channelEmit _ _ _).channelInstances = _
        rw [channelEmit_instances]
        split <;> rfl
      · rfl
    · rfl
  · rfl

/-- `AriClient.Channel` preserves registry key uniqueness. -/
theorem clientChannel_nodup (c : ClientState) (id : Option String)
    (data : Option ChannelPatch) (h : (regKeys c.channelInstances).Nodup) :
    (regKeys (clientChannel c id data).1.channelInstances).Nodup := by
  simp only [clientChannel]
  repeat' split
  all_goals
    first
      | exact channelInstanceNew_nodup _ _ _ h
      | (show (regKeys (mergeExisting _ _ _).channelInstances).Nodup
         rw [mergeExisting_instances]
         exact h)

/-- Convenience-argument resolution preserves registry key uniqueness. -/
theorem getConvenienceArg_nodup (c : ClientState) (e : ChanEvent)
    (h : (regKeys c.channelInstances).Nodup) :
    (regKeys (getConvenienceArg c e).1.channelInstances).Nodup := by
  unfold getConvenienceArg
  split
  · exact clientChannel_nodup _ _ _ h
  · exact h

/-- The facade's event handler preserves registry key uniqueness. -/
theorem handleEvent_nodup (c : ClientState) (e : ChanEvent)
    (h : (regKeys c.channelInstances).Nodup) :
    (regKeys (handleEvent c e).1.channelInstances).Nodup := by
  unfold handleEvent
  rw [show (routeEventToInstances (getConvenienceArg c e).1 e).1.channelInstances
      = (getConvenienceArg c e).1.channelInstances from routeEventToInstances_instances _ _]
  exact getConvenienceArg_nodup _ _ h

/-- Every session operation preserves registry key uniqueness. -/
theorem applyOp_nodup (c : ClientState) (op : ClientOp)
    (h : (regKeys c.channelInstances).Nodup) :
    (regKeys (applyOp c op).channelInstances).Nodup := by
  cases op with
  | channelCall id data => exact clientChannel_nodup _ _ _ h
  | eventOp e => exact handleEvent_nodup _ _ h
  | onOp ref ev lid =>
    show (regKeys (channelOn c ref ev lid).channelInstances).Nodup
    rw [channelOn_instances]
    exact h
  | removeAllListenersOp ref =>
    rcases hsg : storeGet c.store ref with _ | p
    · simpa only [applyOp, hsg] using h
    · simp only [applyOp, hsg, unregisterChannelInstance]
      exact regKeys_mapDelete_nodup _ h

/-- Registry key uniqueness is invariant under any operation sequence. -/
theorem runOps_nodup (ops : List ClientOp) :
    ∀ c : ClientState, (regKeys c.channelInstances).Nodup →
      (regKeys (runOps c ops).channelInstances).Nodup := by
  induction ops with
  | nil => intro c h; exact h
  | cons op rest ih =>
    intro c h
    exact ih (applyOp c op) (applyOp_nodup c op h)

/-- `Map.get` after `Map.set` of the same key finds the written value. -/
theorem mapGet_set_self (m : List (String × Nat)) (k : String) (v : Nat) :
    mapGet (mapSet m k v) k = some v := by
  induction m with
  | nil => simp [mapSet, mapGet]
  | cons hd tl ih =>
    obtain ⟨a, w⟩ := hd
    by_cases h : a = k
    · simp [mapSet, mapGet, h]
    · simp [mapSet, mapGet, h, ih]

/-- `Map.set` of an absent key grows the map by exactly one entry. -/
theorem mapSet_length_of_none {m : List (String × Nat)} {k : String} (v : Nat)
    (h : mapGet m k = none) : (mapSet m k v).length = m.length + 1 := by
  induction m with
  | nil => rfl
  | cons hd tl ih =>
    obtain ⟨a, w⟩ := hd
    by_cases hk : a = k
    · rw [mapGet, if_pos hk] at h
      cases h
    · rw [mapGet, if_neg hk] at h
      rw [mapSet, if_neg hk]
      simp [ih h]

/-- `updateData` adopts the patch's identifier when it is defined. -/
theorem updateData_id_some (p : ChannelProxy) (d : ChannelPatch) (i : String)
    (h : d.id = some i) : (updateData p d).id = i := by
  unfold updateData
  rcases hn : d.name with _ | n <;> rcases hst : d.state with _ | st <;> simp [h, hn, hst]

/-- Calling `AriClient.Channel` twice with the same identifier returns
the reference registered by the first call and changes nothing. -/
theorem clientChannel_twice (c : ClientState) (I : String) (hI : I ≠ "") :
    clientChannel (clientChannel c (some I) none).1 (some I) none
      = ((clientChannel c (some I) none).1, (clientChannel c (some I) none).2) := by
  have htr : truthy (some I) = true := by simp [truthy, hI]
  rcases hm : mapGet c.channelInstances I with _ | ref
  · simp only [clientChannel, htr, if_pos rfl, hm, channelInstanceNew, hI, if_pos]
    simp [mapGet_set_self, truthy, hI, mergeExisting]
  · simp [clientChannel, htr, hm, truthy, hI, mergeExisting]

/-- C7: `getOrCreate("channel", undefined, undefined)` yields a proxy with
the non-empty generated identifier `"uuid-0"`; processing
`{type:"ChannelStateChange", channel:{id:"uuid-0", state:"Up"}}` through
the facade routes the event (not dropped), sets the proxy's cached state
to `"Up"`, and invokes each of the two listeners registered via
`.on("ChannelStateChange", fn)` exactly once with `(event, proxy)`. -/
theorem channel_state_change_scenario :
    ((storeGet c7client.store c7ref).map (fun p => p.id) = some "uuid-0" ∧
      ("uuid-0" : String) ≠ "") ∧
    c7final.2 = true ∧
    (storeGet c7final.1.store c7ref).map (fun p => p.state) = some "Up" ∧
    c7final.1.callLog = [⟨7, c7event, c7ref⟩, ⟨8, c7event, c7ref⟩] := by
  decide

/-- Routing delivers (updates and emits) whenever the event's channel
identifier is registered. -/
theorem routeEventToInstances_delivers (c : ClientState) (e : ChanEvent) (ch : ChannelPatch)
    (i : String) (r : Nat) (hch : e.channel = some ch) (hid : ch.id = some i)
    (hm : mapGet c.channelInstances i = some r) :
    (routeEventToInstances c e).2 = true := by
  simp only [routeEventToInstances, hch, hid, hm]

/-- `AriClient.Channel(i, ch)` leaves the identifier registered: it either
finds the existing entry (registry untouched) or registers a fresh proxy
under the patch's identifier, growing the registry by one. -/
theorem clientChannel_registers (c : ClientState) (ch : ChannelPatch) (i : String)
    (hid : ch.id = some i) (hi : i ≠ "") :
    (∃ r, mapGet (clientChannel c (some i) (some ch)).1.channelInstances i = some r) ∧
    (clientChannel c (some i) (some ch)).1.channelInstances.length =
      (if (mapGet c.channelInstances i).isSome then c.channelInstances.length
       else c.channelInstances.length + 1) := by
  have htr : truthy (some i) = true := by simp [truthy, hi]
  rcases hm : mapGet c.channelInstances i with _ | ref
  · constructor
    · refine ⟨c.nextRef, ?_⟩
      simp [clientChannel, channelInstanceNew, htr, hm, hi]
      rw [updateData_id_some _ _ _ hid]
      exact mapGet_set_self _ _ _
    · simp [clientChannel, channelInstanceNew, htr, hm, hi]
      rw [updateData_id_some _ _ _ hid]
      exact mapSet_length_of_none _ hm
  · constructor
    · refine ⟨ref, ?_⟩
      simp [clientChannel, htr, hm]
      rw [show (mergeExisting c ref (some ch)).channelInstances
          = c.channelInstances from mergeExisting_instances c ref (some ch)]
      exact hm
    · simp [clientChannel, htr, hm]
      rw [show (mergeExisting c ref (some ch)).channelInstances
          = c.channelInstances from mergeExisting_instances c ref (some ch)]

/-- C10: for every event carrying a channel reference with a proper
identifier, the facade's handler registers a proxy for that identifier
(convenience-argument resolution creates it on demand before routing), the
routing step finds the instance and delivers the event (never drops it),
and the registry grows by exactly one entry when the identifier was
previously unknown and is unchanged otherwise. -/
theorem convenience_registers_channel (c : ClientState) (e : ChanEvent) (ch : ChannelPatch)
    (i : String) (hch : e.channel = some ch) (hid : ch.id = some i) (hi : i ≠ "") :
    (mapGet (handleEvent c e).1.channelInstances i).isSome = true ∧
    (handleEvent c e).2 = true ∧
    (handleEvent c e).1.channelInstances.length =
      (if (mapGet c.channelInstances i).isSome then c.channelInstances.length
       else c.channelInstances.length + 1) := by
  have hconv : (getConvenienceArg c e).1 = (clientChannel c (some i) (some ch)).1 := by
    simp only [getConvenienceArg, hch, hid]
  obtain ⟨⟨r, hr⟩, hlen⟩ := clientChannel_registers c ch i hid hi
  have hh : handleEvent c e = routeEventToInstances (clientChannel c (some i) (some ch)).1 e := by
    show routeEventToInstances (getConvenienceArg c e).1 e = _
    rw [hconv]
  refine ⟨?_, ?_, ?_⟩
  · rw [hh,
      show (routeEventToInstances (clientChannel c (some i) (some ch)).1 e).1.channelInstances
        = (clientChannel c (some i) (some ch)).1.channelInstances from
        routeEventToInstances_instances _ _, hr]
    rfl
  · rw [hh]
    exact routeEventToInstances_delivers _ e ch i r hch hid hr
  · rw [hh,
      show (routeEventToInstances (clientChannel c (some i) (some ch)).1 e).1.channelInstances
        = (clientChannel c (some i) (some ch)).1.channelInstances from
        routeEventToInstances_instances _ _]
    exact hlen

/-- Witness for C10: a `StasisStart` event referencing the unknown channel
`"ch1"` leaves `"ch1"` registered and is delivered by the routing step. -/
theorem convenience_registers_channel_witness :
    (mapGet (handleEvent ClientState.init
        ⟨"StasisStart", some ⟨some "ch1", none, some "Up"⟩⟩).1.channelInstances "ch1").isSome
      = true ∧
    (handleEvent ClientState.init ⟨"StasisStart", some ⟨some "ch1", none, some "Up"⟩⟩).2 = true := by
  have h := convenience_registers_channel ClientState.init
    ⟨"StasisStart", some ⟨some "ch1", none, some "Up"⟩⟩ ⟨some "ch1", none, some "Up"⟩
    "ch1" rfl rfl (by decide)
  exact ⟨h.1, h.2.1⟩

/-- Two identical-identifier channel factory calls on one session return
the same proxy and leave the session unchanged. -/
theorem sessionChannel_twice (s : SessionState) (I : String) (hI : I ≠ "") :
    sessionChannel (sessionChannel s (some I) none).1 (some I) none
      = ((sessionChannel s (some I) none).1, (sessionChannel s (some I) none).2) := by
  have h := clientChannel_twice s.client I hI
  simp only [sessionChannel]
  rw [h]

/-- Two identical-identifier bridge factory calls return the same proxy
and leave the session unchanged. -/
theorem getBridgeInstance_twice (s : SessionState) (I : String) (hI : I ≠ "") :
    getBridgeInstance (getBridgeInstance s (some I) none).1 (some I) none
      = ((getBridgeInstance s (some I) none).1, (getBridgeInstance s (some I) none).2) := by
  have htr : truthy (some I) = true := by simp [truthy, hI]
  rcases hm : mapGet s.bridgeInstances I with _ | ref
  · simp only [getBridgeInstance, htr, if_pos rfl, hm, bridgeInstanceNew, hI, if_pos]
    simp [mapGet_set_self, truthy, hI, bridgeMergeExisting]
  · simp [getBridgeInstance, htr, hm, truthy, hI, bridgeMergeExisting]

/-- Two identical-identifier playback factory calls return the same
proxy and leave the session unchanged. -/
theorem clientPlayback_twice (s : SessionState) (I : String) (hI : I ≠ "") :
    clientPlayback (clientPlayback s (some I) none).1 (some I) none
      = ((clientPlayback s (some I) none).1, (clientPlayback s (some I) none).2) := by
  have htr : truthy (some I) = true := by simp [truthy, hI]
  rcases hm : mapGet s.playbackInstances I with _ | ref
  · simp only [clientPlayback, htr, if_pos rfl, hm, playbackInstanceNew, hI, if_pos]
    simp [mapGet_set_self, truthy, hI, playbackMergeExisting]
  · simp [clientPlayback, htr, hm, truthy, hI, playbackMergeExisting]

/-- Two identical-name recording factory calls return the same proxy and
leave the session unchanged (no truthiness check: this holds for every
name). -/
theorem clientLiveRecording_twice (s : SessionState) (I : String) :
    clientLiveRecording (clientLiveRecording s I none).1 I none
      = ((clientLiveRecording s I none).1, (clientLiveRecording s I none).2) := by
  rcases hm : mapGet s.recordingInstances I with _ | ref
  · simp only [clientLiveRecording, hm, liveRecordingInstanceNew]
    simp [mapGet_set_self, recordingMergeExisting]
  · simp [clientLiveRecording, hm, recordingMergeExisting]

/-- The bridge constructor touches only the bridge store and registry,
adding one `Map.set` entry. -/
theorem bridgeInstanceNew_parts (s : SessionState) (id : Option String)
    (data : Option BridgePatch) :
    (bridgeInstanceNew s id data).1.client = s.client ∧
    (bridgeInstanceNew s id data).1.playbackInstances = s.playbackInstances ∧
    (bridgeInstanceNew s id data).1.recordingInstances = s.recordingInstances ∧
    ((regKeys s.bridgeInstances).Nodup →
      (regKeys (bridgeInstanceNew s id data).1.bridgeInstances).Nodup) := by
  unfold bridgeInstanceNew
  rcases id with _ | v
  · exact ⟨rfl, rfl, rfl, fun h => regKeys_mapSet_nodup _ _ h⟩
  · dsimp only
    by_cases hv : v ≠ ""
    · rw [if_pos hv]
      exact ⟨rfl, rfl, rfl, fun h => regKeys_mapSet_nodup _ _ h⟩
    · rw [if_neg hv]
      exact ⟨rfl, rfl, rfl, fun h => regKeys_mapSet_nodup _ _ h⟩

/-- Merging data into a registered bridge touches only the bridge store. -/
theorem bridgeMergeExisting_parts (s : SessionState) (ref : Nat)
    (data : Option BridgePatch) :
    (bridgeMergeExisting s ref data).client = s.client ∧
    (bridgeMergeExisting s ref data).playbackInstances = s.playbackInstances ∧
    (bridgeMergeExisting s ref data).recordingInstances = s.recordingInstances ∧
    (bridgeMergeExisting s ref data).bridgeInstances = s.bridgeInstances := by
  unfold bridgeMergeExisting
  split
  · split <;> exact ⟨rfl, rfl, rfl, rfl⟩
  · exact ⟨rfl, rfl, rfl, rfl⟩

/-- The bridge factory touches no other kind's registry and preserves
bridge-registry key uniqueness. -/
theorem getBridgeInstance_parts (s : SessionState) (id : Option String)
    (data : Option BridgePatch) :
    (getBridgeInstance s id data).1.client = s.client ∧
    (getBridgeInstance s id data).1.playbackInstances = s.playbackInstances ∧
    (getBridgeInstance s id data).1.recordingInstances = s.recordingInstances ∧
    ((regKeys s.bridgeInstances).Nodup →
      (regKeys (getBridgeInstance s id data).1.bridgeInstances).Nodup) := by
  simp only [getBridgeInstance]
  repeat' split
  all_goals
    first
      | exact bridgeInstanceNew_parts _ _ _
      | (refine ⟨(bridgeMergeExisting_parts _ _ _).1, (bridgeMergeExisting_parts _ _ _).2.1,
          (bridgeMergeExisting_parts _ _ _).2.2.1, fun h => ?_⟩
         show (regKeys (bridgeMergeExisting _ _ _).bridgeInstances).Nodup
         rw [(bridgeMergeExisting_parts _ _ _).2.2.2]
         exact h)

/-- The playback constructor touches only the playback store and
registry, adding one `Map.set` entry. -/
theorem playbackInstanceNew_parts (s : SessionState) (id : Option String)
    (data : Option PlaybackPatch) :
    (playbackInstanceNew s id data).1.client = s.client ∧
    (playbackInstanceNew s id data).1.bridgeInstances = s.bridgeInstances ∧
    (playbackInstanceNew s id data).1.recordingInstances = s.recordingInstances ∧
    ((regKeys s.playbackInstances).Nodup →
      (regKeys (playbackInstanceNew s id data).1.playbackInstances).Nodup) := by
  unfold playbackInstanceNew
  rcases id with _ | v
  · exact ⟨rfl, rfl, rfl, fun h => regKeys_mapSet_nodup _ _ h⟩
  · dsimp only
    by_cases hv : v ≠ ""
    · rw [if_pos hv]
      exact ⟨rfl, rfl, rfl, fun h => regKeys_mapSet_nodup _ _ h⟩
    · rw [if_neg hv]
      exact ⟨rfl, rfl, rfl, fun h => regKeys_mapSet_nodup _ _ h⟩

/-- Merging data into a registered playback touches only the playback
store. -/
theorem playbackMergeExisting_parts (s : SessionState) (ref : Nat)
    (data : Option PlaybackPatch) :
    (playbackMergeExisting s ref data).client = s.client ∧
    (playbackMergeExisting s ref data).bridgeInstances = s.bridgeInstances ∧
    (playbackMergeExisting s ref data).recordingInstances = s.recordingInstances ∧
    (playbackMergeExisting s ref data).playbackInstances = s.playbackInstances := by
  unfold playbackMergeExisting
  split
  · split <;> exact ⟨rfl, rfl, rfl, rfl⟩
  · exact ⟨rfl, rfl, rfl, rfl⟩

/-- The playback factory touches no other kind's registry and preserves
playback-registry key uniqueness. -/
theorem clientPlayback_parts (s : SessionState) (id : Option String)
    (data : Option PlaybackPatch) :
    (clientPlayback s id data).1.client = s.client ∧
    (clientPlayback s id data).1.bridgeInstances = s.bridgeInstances ∧
    (clientPlayback s id data).1.recordingInstances = s.recordingInstances ∧
    ((regKeys s.playbackInstances).Nodup →
      (regKeys (clientPlayback s id data).1.playbackInstances).Nodup) := by
  simp only [clientPlayback]
  repeat' split
  all_goals
    first
      | exact playbackInstanceNew_parts _ _ _
      | (refine ⟨(playbackMergeExisting_parts _ _ _).1, (playbackMergeExisting_parts _ _ _).2.1,
          (playbackMergeExisting_parts _ _ _).2.2.1, fun h => ?_⟩
         show (regKeys (playbackMergeExisting _ _ _).playbackInstances).Nodup
         rw [(playbackMergeExisting_parts _ _ _).2.2.2]
         exact h)

/-- Merging data into a registered recording touches only the recording
store. -/
theorem recordingMergeExisting_parts (s : SessionState) (ref : Nat)
    (data : Option RecordingPatch) :
    (recordingMergeExisting s ref data).client = s.client ∧
    (recordingMergeExisting s ref data).bridgeInstances = s.bridgeInstances ∧
    (recordingMergeExisting s ref data).playbackInstances = s.playbackInstances ∧
    (recordingMergeExisting s ref data).recordingInstances = s.recordingInstances := by
  unfold recordingMergeExisting
  split
  · split <;> exact ⟨rfl, rfl, rfl, rfl⟩
  · exact ⟨rfl, rfl, rfl, rfl⟩

/-- The recording factory touches no other kind's registry and preserves
recording-registry key uniqueness. -/
theorem clientLiveRecording_parts (s : SessionState) (name : String)
    (data : Option RecordingPatch) :
    (clientLiveRecording s name data).1.client = s.client ∧
    (clientLiveRecording s name data).1.bridgeInstances = s.bridgeInstances ∧
    (clientLiveRecording s name data).1.playbackInstances = s.playbackInstances ∧
    ((regKeys s.recordingInstances).Nodup →
      (regKeys (clientLiveRecording s name data).1.recordingInstances).Nodup) := by
  simp only [clientLiveRecording]
  split
  · refine ⟨(recordingMergeExisting_parts _ _ _).1, (recordingMergeExisting_parts _ _ _).2.1,
      (recordingMergeExisting_parts _ _ _).2.2.1, fun h => ?_⟩
    show (regKeys (recordingMergeExisting _ _ _).recordingInstances).Nodup
    rw [(recordingMergeExisting_parts _ _ _).2.2.2]
    exact h
  · exact ⟨rfl, rfl, rfl, fun h => regKeys_mapSet_nodup _ _ h⟩

/-- Every session operation preserves key uniqueness of all four
registries. -/
theorem applySessionOp_nodup (s : SessionState) (op : SessionOp)
    (h1 : (regKeys s.client.channelInstances).Nodup)
    (h2 : (regKeys s.bridgeInstances).Nodup)
    (h3 : (regKeys s.playbackInstances).Nodup)
    (h4 : (regKeys s.recordingInstances).Nodup) :
    (regKeys (applySessionOp s op).client.channelInstances).Nodup ∧
    (regKeys (applySessionOp s op).bridgeInstances).Nodup ∧
    (regKeys (applySessionOp s op).playbackInstances).Nodup ∧
    (regKeys (applySessionOp s op).recordingInstances).Nodup := by
  cases op with
  | channelOp op => exact ⟨applyOp_nodup _ _ h1, h2, h3, h4⟩
  | bridgeCall id data =>
    obtain ⟨hc, hp, hr, hb⟩ := getBridgeInstance_parts s id data
    refine ⟨?_, ?_, ?_, ?_⟩
    · show (regKeys (getBridgeInstance s id data).1.client.channelInstances).Nodup
      rw [hc]; exact h1
    · exact hb h2
    · show (regKeys (getBridgeInstance s id data).1.playbackInstances).Nodup
      rw [hp]; exact h3
    · show (regKeys (getBridgeInstance s id data).1.recordingInstances).Nodup
      rw [hr]; exact h4
  | bridgeRoute d =>
    rcases hd : d.id with _ | i
    · simpa only [applySessionOp, hd] using ⟨h1, h2, h3, h4⟩
    · rcases hm : mapGet s.bridgeInstances i with _ | ref
      · simpa only [applySessionOp, hd, hm] using ⟨h1, h2, h3, h4⟩
      · rcases hg : refGet s.bridgeStore ref with _ | p
        · simpa only [applySessionOp, hd, hm, hg] using ⟨h1, h2, h3, h4⟩
        · simpa only [applySessionOp, hd, hm, hg] using ⟨h1, h2, h3, h4⟩
  | bridgeRemoveAll ref =>
    rcases hg : refGet s.bridgeStore ref with _ | p
    · simpa only [applySessionOp, hg] using ⟨h1, h2, h3, h4⟩
    · simp only [applySessionOp, hg]
      exact ⟨h1, regKeys_mapDelete_nodup _ h2, h3, h4⟩
  | playbackCall id data =>
    obtain ⟨hc, hb, hr, hp⟩ := clientPlayback_parts s id data
    refine ⟨?_, ?_, ?_, ?_⟩
    · show (regKeys (clientPlayback s id data).1.client.channelInstances).Nodup
      rw [hc]; exact h1
    · show (regKeys (clientPlayback s id data).1.bridgeInstances).Nodup
      rw [hb]; exact h2
    · exact hp h3
    · show (regKeys (clientPlayback s id data).1.recordingInstances).Nodup
      rw [hr]; exact h4
  | playbackRoute d =>
    rcases hd : d.id with _ | i
    · simpa only [applySessionOp, hd] using ⟨h1, h2, h3, h4⟩
    · rcases hm : mapGet s.playbackInstances i with _ | ref
      · simpa only [applySessionOp, hd, hm] using ⟨h1, h2, h3, h4⟩
      · rcases hg : refGet s.playbackStore ref with _ | p
        · simpa only [applySessionOp, hd, hm, hg] using ⟨h1, h2, h3, h4⟩
        · simpa only [applySessionOp, hd, hm, hg] using ⟨h1, h2, h3, h4⟩
  | playbackRemoveAll ref =>
    rcases hg : refGet s.playbackStore ref with _ | p
    · simpa only [applySessionOp, hg] using ⟨h1, h2, h3, h4⟩
    · simp only [applySessionOp, hg]
      exact ⟨h1, h2, regKeys_mapDelete_nodup _ h3, h4⟩
  | recordingCall name data =>
    obtain ⟨hc, hb, hp, hr⟩ := clientLiveRecording_parts s name data
    refine ⟨?_, ?_, ?_, ?_⟩
    · show (regKeys (clientLiveRecording s name data).1.client.channelInstances).Nodup
      rw [hc]; exact h1
    · show (regKeys (clientLiveRecording s name data).1.bridgeInstances).Nodup
      rw [hb]; exact h2
    · show (regKeys (clientLiveRecording s name data).1.playbackInstances).Nodup
      rw [hp]; exact h3
    · exact hr h4
  | recordingRoute d =>
    rcases hd : d.name with _ | i
    · simpa only [applySessionOp, hd] using ⟨h1, h2, h3, h4⟩
    · rcases hm : mapGet s.recordingInstances i with _ | ref
      · simpa only [applySessionOp, hd, hm] using ⟨h1, h2, h3, h4⟩
      · rcases hg : refGet s.recordingStore ref with _ | p
        · simpa only [applySessionOp, hd, hm, hg] using ⟨h1, h2, h3, h4⟩
        · simpa only [applySessionOp, hd, hm, hg] using ⟨h1, h2, h3, h4⟩
  | recordingRemoveAll ref =>
    rcases hg : refGet s.recordingStore ref with _ | p
    · simpa only [applySessionOp, hg] using ⟨h1, h2, h3, h4⟩
    · simp only [applySessionOp, hg]
      exact ⟨h1, h2, h3, regKeys_mapDelete_nodup _ h4⟩
  | stopOp =>
    refine ⟨?_, ?_, ?_, ?_⟩ <;> simp [applySessionOp, regKeys_nil]

/-- Key uniqueness of all four registries is invariant under any
session-operation sequence. -/
theorem runSession_nodup (ops : List SessionOp) :
    ∀ s : SessionState,
      (regKeys s.client.channelInstances).Nodup →
      (regKeys s.bridgeInstances).Nodup →
      (regKeys s.playbackInstances).Nodup →
      (regKeys s.recordingInstances).Nodup →
      (regKeys (runSession s ops).client.channelInstances).Nodup ∧
      (regKeys (runSession s ops).bridgeInstances).Nodup ∧
      (regKeys (runSession s ops).playbackInstances).Nodup ∧
      (regKeys (runSession s ops).recordingInstances).Nodup := by
  induction ops with
  | nil => intro s h1 h2 h3 h4; exact ⟨h1, h2, h3, h4⟩
  | cons op rest ih =>
    intro s h1 h2 h3 h4
    obtain ⟨g1, g2, g3, g4⟩ := applySessionOp_nodup s op h1 h2 h3 h4
    exact ih (applySessionOp s op) g1 g2 g3 g4

/-- C6: for every entity kind (channel, bridge, playback, recording) and
identifier, calling the kind's factory/lookup (`getOrCreate`) twice with
the same identifier inside one session returns the same proxy object both
times (the second call returns the reference registered by the first and
changes nothing), and at every state reachable by session operations each
kind's registry holds at most one live proxy per identifier (its key list
has no duplicates). -/
theorem entity_getOrCreate_unique :
    (∀ (s : SessionState) (K : EntityKind) (I : String), I ≠ "" →
      getOrCreate (getOrCreate s K I).1 K I
        = ((getOrCreate s K I).1, (getOrCreate s K I).2)) ∧
    (∀ (K : EntityKind) (ops : List SessionOp),
      (regKeys (registryOf (runSession SessionState.init ops) K)).Nodup) := by
  constructor
  · intro s K I hI
    cases K with
    | channel => exact sessionChannel_twice s I hI
    | bridge => exact getBridgeInstance_twice s I hI
    | playback => exact clientPlayback_twice s I hI
    | recording => exact clientLiveRecording_twice s I
  · intro K ops
    have h := runSession_nodup ops SessionState.init
      (by simp [SessionState.init, ClientState.init, regKeys])
      (by simp [SessionState.init, regKeys])
      (by simp [SessionState.init, regKeys])
      (by simp [SessionState.init, regKeys])
    cases K with
    | channel => exact h.1
    | bridge => exact h.2.1
    | playback => exact h.2.2.1
    | recording => exact h.2.2.2

/-- Witness for C6: two bridge factory calls for `"b1"` on a fresh
session return the identical proxy reference and state. -/
theorem entity_getOrCreate_unique_witness :
    getOrCreate (getOrCreate SessionState.init EntityKind.bridge "b1").1 EntityKind.bridge "b1"
      = ((getOrCreate SessionState.init EntityKind.bridge "b1").1,
         (getOrCreate SessionState.init EntityKind.bridge "b1").2) :=
  entity_getOrCreate_unique.1 SessionState.init EntityKind.bridge "b1" (by decide)

end AsteriskAri
